import Mathlib

/-!
# Formal model of flask-security's guard decorators and token views

A shallow embedding of `flask_security/decorators.py` and
`flask_security/views.py`.  External collaborators (the datastore, the
password-hash verifier, the session capability, flask-login's `login_url`,
flask-principal's `Permission`) are modelled as explicit parameters or as
small faithful definitions; the request-scoped globals of Flask become
explicit arguments.
-/

namespace FlaskSecurity

/-- Association-list lookup used to model `request.headers.get` /
`request.args.get` (with default `None`). -/
def lookupKV (l : List (String × String)) (k : String) : Option String :=
  (l.find? (fun p => p.1 == k)).map Prod.snd

/-- The pieces of the Flask request object consumed by the guards. -/
structure Request where
  headers : List (String × String)
  args : List (String × String)
  url : String
  referrer : Option String
  authorization : Option (Option String × Option String)
  deriving Repr, DecidableEq

/-- `request.authorization.username` after the
`request.authorization or dict(username=None, password=None)` defaulting in
`_check_http_auth`. -/
def Request.authUsername (req : Request) : Option String :=
  (req.authorization.getD (none, none)).1

/-- `request.authorization.password` after the same defaulting. -/
def Request.authPassword (req : Request) : Option String :=
  (req.authorization.getD (none, none)).2

/-- A user record as consumed by the guards: the datastore owns it, the
guards only read fields. -/
structure Identity where
  id : Nat
  email : Option String
  password : String
  roles : List String
  authentication_token : Option String
  confirmed_at : Option Nat
  deriving Repr, DecidableEq

/-- The external datastore capability: `find_user(...)` keyword lookups.
A `.error` models the bare-`except`-caught exception (not found or backend
error, indistinguishable to the guard). -/
structure Datastore where
  find_user_by_token : Option String → Except Unit Identity
  find_user_by_email : Option String → Except Unit Identity

/-- Configuration read off `app.security` by the guards. -/
structure SecurityConfig where
  token_authentication_header : String
  token_authentication_key : String
  login_view : String
  deriving Repr, DecidableEq

/-- The token value `_check_token` passes to the datastore lookup:
`header_token = request.headers.get(header_key, None)`;
`token = request.args.get(args_key, header_token)`. -/
def extractToken (cfg : SecurityConfig) (req : Request) : Option String :=
  let header_token := lookupKV req.headers cfg.token_authentication_header
  match lookupKV req.args cfg.token_authentication_key with
  | some v => some v
  | none => header_token

/-- `_check_token`: look the extracted token up in the datastore; any
exception means `False`, any returned user means `True` (the returned user
is not inspected further). -/
def check_token (cfg : SecurityConfig) (ds : Datastore) (req : Request) : Bool :=
  match ds.find_user_by_token (extractToken cfg req) with
  | .ok _ => true
  | .error _ => false

/-- `_check_http_auth`: find the user by the Basic-auth username; a datastore
exception yields `False`; otherwise the external hash verifier decides.
`verify` models `pwd_context.verify(password, stored_hash)`. -/
def check_http_auth (ds : Datastore) (verify : Option String → String → Bool)
    (req : Request) : Bool :=
  match ds.find_user_by_email req.authUsername with
  | .error _ => false
  | .ok user => verify req.authPassword user.password

/-- What a guarded view returns, seen from outside: the wrapped handler ran,
a redirect was issued (optionally carrying a `next` query parameter, as
built by flask-login's `login_url`), an HTTP error response with headers
was produced, or a template was rendered. -/
inductive Response where
  | handler
  | redirect (base : String) (nextParam : Option String)
  | httpError (status : Nat) (headers : List (String × String))
  | render
  deriving Repr, DecidableEq

/-- Result of running a decorated view: the response plus the observable
side effects (diagnostic log lines and flashed user notices). -/
structure GuardResult where
  response : Response
  logs : List String
  flashes : List String
  deriving Repr, DecidableEq

/-- flask-principal's `Permission`, as used here: a bag of `RoleNeed` names.
`can` (via `Permission.allows`) succeeds iff the permission has no needs or
some need is among the roles the identity provides. -/
structure Permission where
  needs : List String
  deriving Repr, DecidableEq

def Permission.can (p : Permission) (provides : List String) : Bool :=
  p.needs.isEmpty || p.needs.any (fun n => provides.contains n)

/-- The session capability's `current_user`: authentication flag plus the
names of the roles the identity provides. -/
structure CurrentUser where
  is_authenticated : Bool
  roles : List String
  deriving Repr, DecidableEq

/-- The `for perm in perms: if not perm.can(): return ...` loop of
`roles_required`: the first permission that denies, if any. -/
def firstFailingPerm : List Permission → List String → Option Permission
  | [], _ => none
  | p :: ps, provides =>
      if p.can provides then firstFailingPerm ps provides else some p

/-- The view produced by `roles_required(*roles)` applied to a handler:
unauthenticated users are redirected to the login view with a `next`
parameter; otherwise each role becomes a one-need `Permission` checked in
order, the first failure logging a notice and redirecting to the referrer
(or `/`); if all pass the handler runs. -/
def roles_required_view (roles : List String) (cfg : SecurityConfig)
    (user : CurrentUser) (req : Request) : GuardResult :=
  if !user.is_authenticated then
    { response := .redirect cfg.login_view (some req.url), logs := [], flashes := [] }
  else
    match firstFailingPerm (roles.map (fun r => Permission.mk [r])) user.roles with
    | some _ =>
        { response := .redirect (req.referrer.getD "/") none
          logs := ["Identity does not provide the roles"]
          flashes := [] }
    | none => { response := .handler, logs := [], flashes := [] }

/-- The view produced by `roles_accepted(*roles)` applied to a handler:
unauthenticated users are redirected to the login view with a `next`
parameter; otherwise a single `Permission` holding every role decides; on
denial a notice is logged, a flash is emitted, and the user is redirected to
the referrer (or `/`). -/
def roles_accepted_view (roles : List String) (cfg : SecurityConfig)
    (user : CurrentUser) (req : Request) : GuardResult :=
  if !user.is_authenticated then
    { response := .redirect cfg.login_view (some req.url), logs := [], flashes := [] }
  else if (Permission.mk roles).can user.roles then
    { response := .handler, logs := [], flashes := [] }
  else
    { response := .redirect (req.referrer.getD "/") none
      logs := ["Current user does not provide a required role"]
      flashes := ["You do not have permission to view this resource"] }

/-- The header attached to the 401 challenge in `http_auth_required`. -/
def basicChallengeHeaders : List (String × String) :=
  [("WWW-Authenticate", "Basic realm=\"Login Required\"")]

/-- The view produced by `http_auth_required`: run the handler when
`_check_http_auth` succeeds, else a constant 401 response with the Basic
challenge header. -/
def http_auth_required_view (ds : Datastore)
    (verify : Option String → String → Bool) (req : Request) : GuardResult :=
  if check_http_auth ds verify req then
    { response := .handler, logs := [], flashes := [] }
  else
    { response := .httpError 401 basicChallengeHeaders, logs := [], flashes := [] }

/-- The view produced by `auth_token_required`: run the handler when
`_check_token` succeeds, else `abort(401)`. -/
def auth_token_required_view (cfg : SecurityConfig) (ds : Datastore)
    (req : Request) : GuardResult :=
  if check_token cfg ds req then
    { response := .handler, logs := [], flashes := [] }
  else
    { response := .httpError 401 [], logs := [], flashes := [] }

/-! ## Token views (`views.py`)

The views consume the `(expired, invalid, user)` triples returned by
`login_token_status`, `confirm_email_token_status` and
`reset_password_token_status`, which live in the `passwordless`,
`confirmable` and `recoverable` modules — not among the sources provided.
Those helpers, and `confirm_user`, are modelled from the spec below. -/

/-- Payload recovered from a purpose-scoped signed token by the codec. -/
structure TokenPayload where
  identityId : Nat
  issuedAt : Nat
  deriving Repr, DecidableEq

/-- Everything a token-status evaluation reads: the codec's decoder for the
relevant purpose, the identity lookup, the purpose's TTL, and the injected
clock. -/
structure TokenEvalCtx where
  decode : String → Option TokenPayload
  findById : Nat → Option Identity
  ttl : Nat
  now : Nat

/-- Modelled from the spec: the `*_token_status` helpers of the
`passwordless`/`confirmable`/`recoverable` modules (absent from the provided
sources) follow §4.2 `evaluate`: decode failure → invalid; identity not
found → invalid; age beyond TTL → expired (with the identity); otherwise
valid. The result is the `(expired, invalid, user)` triple the views
destructure. -/
def token_status (ctx : TokenEvalCtx) (token : String) :
    Bool × Bool × Option Identity :=
  match ctx.decode token with
  | none => (false, true, none)
  | some p =>
      match ctx.findById p.identityId with
      | none => (false, true, none)
      | some u =>
          if ctx.ttl < ctx.now - p.issuedAt then (true, false, some u)
          else (false, false, some u)

/-- Modelled from the spec: `confirm_user` of the `confirmable` module
(absent from the provided sources) is a no-op returning `False` when the
identity's confirmed-at field is already set, and otherwise stamps
confirmed-at with the current time and returns `True`. -/
def confirm_user (now : Nat) (u : Identity) : Bool × Identity :=
  match u.confirmed_at with
  | some _ => (false, u)
  | none => (true, { u with confirmed_at := some now })

/-- Redirect targets configured on the security extension, as read by the
token views (`url_for('login')`, `get_post_login_redirect`, ...). -/
structure Urls where
  login : String
  post_login : String
  confirm_error_view : Option String
  send_confirmation : String
  post_confirm_view : Option String
  forgot_password : String
  post_reset_view : Option String
  deriving Repr, DecidableEq

/-- Result of running a token view: the response, the flashed notices, the
identities to whom fresh instructions (a re-issued token) were emailed,
whether `logout_user`/`login_user` were called, the session identity when
the view returns, whether a datastore commit was registered, and the
identity record as left by the view. -/
structure ViewResult where
  response : Response
  flashes : List String
  reissuedTo : List Nat
  loggedOut : Bool
  loggedIn : Option Nat
  sessionAfter : Option Nat
  committed : Bool
  userAfter : Option Identity
  deriving Repr, DecidableEq

/-- `token_login(token)`: evaluate the passwordless login token; flash on
invalid; on expired, re-send login instructions and flash; redirect to the
login view in either case; otherwise log the user in, register a commit,
flash success and redirect to the post-login target.  (The view is
`@anonymous_user_required`, so the session starts anonymous.) -/
def token_login (ctx : TokenEvalCtx) (urls : Urls) (token : String) : ViewResult :=
  match token_status ctx token with
  | (expired, invalid, user) =>
      let flashes := (if invalid then ["INVALID_LOGIN_TOKEN"] else []) ++
                     (if expired then ["LOGIN_EXPIRED"] else [])
      let reissued := if expired then (user.map Identity.id).toList else []
      if invalid || expired then
        { response := .redirect urls.login none, flashes := flashes
          reissuedTo := reissued, loggedOut := false, loggedIn := none
          sessionAfter := none, committed := false, userAfter := user }
      else
        { response := .redirect urls.post_login none
          flashes := flashes ++ ["PASSWORDLESS_LOGIN_SUCCESSFUL"]
          reissuedTo := reissued, loggedOut := false
          loggedIn := user.map Identity.id, sessionAfter := user.map Identity.id
          committed := true, userAfter := user }

/-- `confirm_email(token)`: evaluate the confirmation token (a missing user
also counts as invalid); flash on invalid; on expired, re-send confirmation
instructions and flash; redirect to the configured error view or the
send-confirmation view in either case.  On a valid token, switch the session
to the token's identity when it differs from the current one, then
`confirm_user`: a first confirmation registers a commit and flashes
`EMAIL_CONFIRMED`, an already-confirmed identity flashes `ALREADY_CONFIRMED`
with no commit; both redirect to the post-confirm or post-login target.
`current` is the session's current identity (none = anonymous). -/
def confirm_email (ctx : TokenEvalCtx) (urls : Urls) (current : Option Nat)
    (token : String) : ViewResult :=
  match token_status ctx token with
  | (expired, invalid0, user) =>
      let invalid := invalid0 || user.isNone
      let flashes := (if invalid then ["INVALID_CONFIRMATION_TOKEN"] else []) ++
                     (if expired then ["CONFIRMATION_EXPIRED"] else [])
      let reissued := if expired then (user.map Identity.id).toList else []
      if invalid || expired then
        { response := .redirect (urls.confirm_error_view.getD urls.send_confirmation) none
          flashes := flashes, reissuedTo := reissued, loggedOut := false
          loggedIn := none, sessionAfter := current, committed := false
          userAfter := user }
      else
        match user with
        | none =>
            { response := .redirect (urls.confirm_error_view.getD urls.send_confirmation) none
              flashes := flashes, reissuedTo := reissued, loggedOut := false
              loggedIn := none, sessionAfter := current, committed := false
              userAfter := none }
        | some u =>
            let switch := current ≠ some u.id
            let (confirmed, u2) := confirm_user ctx.now u
            { response := .redirect ((urls.post_confirm_view).getD urls.post_login) none
              flashes := flashes ++
                [if confirmed then "EMAIL_CONFIRMED" else "ALREADY_CONFIRMED"]
              reissuedTo := reissued
              loggedOut := switch
              loggedIn := if switch then some u.id else none
              sessionAfter := some u.id
              committed := confirmed
              userAfter := some u2 }

/-- `reset_password(token)`: evaluate the reset token; flash on invalid;
on expired, flash only (no instructions are re-sent); redirect to the
forgot-password view in either case.  On a valid token, a valid form
submission registers a commit, updates the password, flashes, logs the user
in and redirects to the post-reset or post-login target; otherwise the form
template is rendered. -/
def reset_password (ctx : TokenEvalCtx) (urls : Urls) (formValid : Bool)
    (newPassword : String) (token : String) : ViewResult :=
  match token_status ctx token with
  | (expired, invalid, user) =>
      let flashes := (if invalid then ["INVALID_RESET_PASSWORD_TOKEN"] else []) ++
                     (if expired then ["PASSWORD_RESET_EXPIRED"] else [])
      if invalid || expired then
        { response := .redirect urls.forgot_password none, flashes := flashes
          reissuedTo := [], loggedOut := false, loggedIn := none
          sessionAfter := none, committed := false, userAfter := user }
      else
        match user with
        | none =>
            { response := .render, flashes := flashes, reissuedTo := []
              loggedOut := false, loggedIn := none, sessionAfter := none
              committed := false, userAfter := none }
        | some u =>
            if formValid then
              { response := .redirect ((urls.post_reset_view).getD urls.post_login) none
                flashes := flashes ++ ["PASSWORD_RESET"], reissuedTo := []
                loggedOut := false, loggedIn := some u.id
                sessionAfter := some u.id, committed := true
                userAfter := some { u with password := newPassword } }
            else
              { response := .render, flashes := flashes, reissuedTo := []
                loggedOut := false, loggedIn := none, sessionAfter := none
                committed := false, userAfter := some u }

/-! ## Helper lemmas -/

theorem Permission.can_singleton (r : String) (provides : List String) :
    (Permission.mk [r]).can provides = provides.contains r := by
  simp [Permission.can]

theorem firstFailingPerm_eq_none_iff (roles provides : List String) :
    firstFailingPerm (roles.map (fun r => Permission.mk [r])) provides = none ↔
      ∀ r ∈ roles, r ∈ provides := by
  induction roles with
  | nil => simp [firstFailingPerm]
  | cons r rs ih =>
      simp only [List.map_cons, firstFailingPerm, Permission.can_singleton]
      by_cases h : provides.contains r = true
      · have hr : r ∈ provides := by
          simpa [List.contains] using h
        simp [h, ih, hr]
      · have hr : r ∉ provides := by
          simpa [List.contains] using h
        simp [h, hr]

theorem Permission.can_iff_exists (roles provides : List String) (hne : roles ≠ []) :
    (Permission.mk roles).can provides = true ↔ ∃ r ∈ roles, r ∈ provides := by
  have hem : roles.isEmpty = false := by
    cases roles with
    | nil => exact absurd rfl hne
    | cons a l => rfl
  simp [Permission.can, hem, List.any_eq_true, List.contains]

/-! ## Claim theorems -/

/-- Concrete configuration for the token-extraction counterexample. -/
def cfgC1 : SecurityConfig :=
  { token_authentication_header := "X-Auth-Token"
    token_authentication_key := "auth_token"
    login_view := "/login" }

/-- A request carrying a token in the configured header and a different
token in the configured query parameter. -/
def reqC1 : Request :=
  { headers := [("X-Auth-Token", "HEADERVAL")]
    args := [("auth_token", "QUERYVAL")]
    url := "/protected", referrer := none, authorization := none }

/-- A user whose bearer token is the header value of `reqC1`. -/
def userC1 : Identity :=
  { id := 1, email := some "u@example.com", password := "hash", roles := []
    authentication_token := some "HEADERVAL", confirmed_at := none }

/-- A datastore in which only the header value authenticates. -/
def dsC1 : Datastore :=
  { find_user_by_token := fun t =>
      if t == some "HEADERVAL" then .ok userC1 else .error ()
    find_user_by_email := fun _ => .error () }

/-- C1 counterexample: with both the configured header and the configured
query parameter present, `_check_token` passes the query-parameter value,
not the header value, to the identity lookup — a datastore that would
authenticate the header value rejects the request. -/
theorem C1_header_precedence_counterexample :
    lookupKV reqC1.headers cfgC1.token_authentication_header = some "HEADERVAL" ∧
    lookupKV reqC1.args cfgC1.token_authentication_key = some "QUERYVAL" ∧
    extractToken cfgC1 reqC1 = some "QUERYVAL" ∧
    extractToken cfgC1 reqC1 ≠ some "HEADERVAL" ∧
    check_token cfgC1 dsC1 reqC1 = false := by
  decide

/-- C1 amended: the query parameter takes precedence — whenever the
configured query parameter carries a value, that value (not the header's)
is the one `_check_token` hands to the identity lookup; the header is
consulted only as the fallback default. -/
theorem C1_query_param_precedence (cfg : SecurityConfig) (ds : Datastore)
    (req : Request) (v : String)
    (hq : lookupKV req.args cfg.token_authentication_key = some v) :
    extractToken cfg req = some v ∧
    check_token cfg ds req = (ds.find_user_by_token (some v)).isOk := by
  have he : extractToken cfg req = some v := by
    unfold extractToken
    rw [hq]
  refine ⟨he, ?_⟩
  unfold check_token
  rw [he]
  cases ds.find_user_by_token (some v) <;> rfl

/-- Witness for `C1_query_param_precedence` at the concrete request. -/
theorem C1_query_param_precedence_witness :
    extractToken cfgC1 reqC1 = some "QUERYVAL" ∧
    check_token cfgC1 dsC1 reqC1 =
      (dsC1.find_user_by_token (some "QUERYVAL")).isOk :=
  C1_query_param_precedence cfgC1 dsC1 reqC1 "QUERYVAL" (by decide)

/-- C2: for an authenticated identity and a non-empty role list, the view
wrapped by `roles_required` runs the handler iff the identity holds every
required role; the one-need permissions are checked conjunctively, the loop
stopping at the first failure. -/
theorem C2_roles_required_iff_all (roles : List String) (cfg : SecurityConfig)
    (user : CurrentUser) (req : Request)
    (hauth : user.is_authenticated = true) (_hne : roles ≠ []) :
    (roles_required_view roles cfg user req).response = Response.handler ↔
      ∀ r ∈ roles, r ∈ user.roles := by
  unfold roles_required_view
  rw [hauth]
  rcases hf : firstFailingPerm (roles.map fun r => Permission.mk [r]) user.roles
    with _ | p
  · simp only [Bool.not_true, Bool.false_eq_true, if_false, hf]
    simp only [true_iff]
    exact (firstFailingPerm_eq_none_iff roles user.roles).mp hf
  · simp only [Bool.not_true, Bool.false_eq_true, if_false, hf]
    constructor
    · intro hcontra
      exact absurd hcontra (by simp)
    · intro hall
      have hnone := (firstFailingPerm_eq_none_iff roles user.roles).mpr hall
      rw [hf] at hnone
      exact absurd hnone (by simp)

/-- Witness for `C2_roles_required_iff_all`: a user holding both required
roles reaches the handler. -/
theorem C2_roles_required_witness :
    (roles_required_view ["admin", "editor"] cfgC1
      { is_authenticated := true, roles := ["admin", "editor"] }
      reqC1).response = Response.handler :=
  (C2_roles_required_iff_all ["admin", "editor"] cfgC1
      { is_authenticated := true, roles := ["admin", "editor"] }
      reqC1 rfl (by decide)).mpr (by decide)

/-- C3: for an authenticated identity and a non-empty role list, the view
wrapped by `roles_accepted` runs the handler iff the identity holds at least
one of the accepted roles (the intersection is non-empty). -/
theorem C3_roles_accepted_iff_any (roles : List String) (cfg : SecurityConfig)
    (user : CurrentUser) (req : Request)
    (hauth : user.is_authenticated = true) (hne : roles ≠ []) :
    (roles_accepted_view roles cfg user req).response = Response.handler ↔
      ∃ r ∈ roles, r ∈ user.roles := by
  unfold roles_accepted_view
  rw [hauth]
  by_cases h : (Permission.mk roles).can user.roles = true
  · simp only [Bool.not_true, Bool.false_eq_true, if_false, h, if_true]
    simp only [true_iff]
    exact (Permission.can_iff_exists roles user.roles hne).mp h
  · simp only [Bool.not_true, Bool.false_eq_true, if_false, h, if_false]
    constructor
    · intro hcontra
      exact absurd hcontra (by simp)
    · intro hex
      exact absurd ((Permission.can_iff_exists roles user.roles hne).mpr hex) h

/-- Witness for `C3_roles_accepted_iff_any`: a user holding one of the two
accepted roles reaches the handler. -/
theorem C3_roles_accepted_witness :
    (roles_accepted_view ["editor", "author"] cfgC1
      { is_authenticated := true, roles := ["editor"] }
      reqC1).response = Response.handler :=
  (C3_roles_accepted_iff_any ["editor", "author"] cfgC1
      { is_authenticated := true, roles := ["editor"] }
      reqC1 rfl (by decide)).mpr (by decide)

/-- C4: HTTP Basic authentication failure is uniform. An unsuccessful
datastore lookup (missing credentials, unknown identity, or backend error —
all one caught exception) makes `_check_http_auth` false; so does a
password-hash mismatch on a found user; and whenever `_check_http_auth` is
false the guard's answer is the one constant 401 response carrying the
`WWW-Authenticate: Basic` challenge header, with no other observable
effect distinguishing the causes (totality of the model reflects that no
exception escapes the guard). -/
theorem C4_http_auth_uniform_401 (ds : Datastore)
    (verify : Option String → String → Bool) (req : Request) (u : Identity) :
    ((ds.find_user_by_email req.authUsername).isOk = false →
      check_http_auth ds verify req = false) ∧
    (ds.find_user_by_email req.authUsername = .ok u →
      verify req.authPassword u.password = false →
      check_http_auth ds verify req = false) ∧
    (check_http_auth ds verify req = false →
      http_auth_required_view ds verify req =
        { response := .httpError 401 basicChallengeHeaders
          logs := [], flashes := [] }) := by
  refine ⟨?_, ?_, ?_⟩
  · intro hfail
    unfold check_http_auth
    cases hds : ds.find_user_by_email req.authUsername with
    | error e => rfl
    | ok w =>
        rw [hds] at hfail
        exact absurd hfail (by simp [Except.isOk, Except.toBool])
  · intro hds hver
    unfold check_http_auth
    rw [hds]
    exact hver
  · intro hfail
    unfold http_auth_required_view
    rw [hfail]
    rfl

/-- A datastore whose email lookup always fails, for the C4 witness. -/
def dsFail : Datastore :=
  { find_user_by_token := fun _ => .error ()
    find_user_by_email := fun _ => .error () }

/-- Witness for `C4_http_auth_uniform_401` at a concrete failing request. -/
theorem C4_http_auth_uniform_401_witness :
    ((dsFail.find_user_by_email reqC1.authUsername).isOk = false →
      check_http_auth dsFail (fun _ _ => false) reqC1 = false) ∧
    (dsFail.find_user_by_email reqC1.authUsername = .ok userC1 →
      (fun (_ : Option String) (_ : String) => false) reqC1.authPassword userC1.password = false →
      check_http_auth dsFail (fun _ _ => false) reqC1 = false) ∧
    (check_http_auth dsFail (fun _ _ => false) reqC1 = false →
      http_auth_required_view dsFail (fun _ _ => false) reqC1 =
        { response := .httpError 401 basicChallengeHeaders
          logs := [], flashes := [] }) :=
  C4_http_auth_uniform_401 dsFail (fun _ _ => false) reqC1 userC1

/-- C5: when an authenticated identity fails the role requirement, both
`roles_required` and `roles_accepted` answer with a redirect to the
referrer (or the `/` default) together with a denial notice — a diagnostic
log line for `roles_required`, a log line plus a flashed message for
`roles_accepted`; the result being a redirect, it is in particular neither
a 403 response nor an invocation of the handler. -/
theorem C5_soft_deny_redirect (roles : List String) (cfg : SecurityConfig)
    (user : CurrentUser) (req : Request)
    (hauth : user.is_authenticated = true) :
    ((roles_required_view roles cfg user req).response ≠ Response.handler →
      roles_required_view roles cfg user req =
        { response := .redirect (req.referrer.getD "/") none
          logs := ["Identity does not provide the roles"]
          flashes := [] }) ∧
    ((roles_accepted_view roles cfg user req).response ≠ Response.handler →
      roles_accepted_view roles cfg user req =
        { response := .redirect (req.referrer.getD "/") none
          logs := ["Current user does not provide a required role"]
          flashes := ["You do not have permission to view this resource"] }) := by
  constructor
  · intro hne
    unfold roles_required_view at hne ⊢
    rw [hauth] at hne ⊢
    rcases hf : firstFailingPerm (roles.map fun r => Permission.mk [r]) user.roles
      with _ | p
    · simp [hf] at hne
    · simp [hf]
  · intro hne
    unfold roles_accepted_view at hne ⊢
    rw [hauth] at hne ⊢
    by_cases h : (Permission.mk roles).can user.roles
    · simp [h] at hne
    · simp [h]

/-- Witness for `C5_soft_deny_redirect`: an editor denied the `admin`
requirement. -/
theorem C5_soft_deny_redirect_witness :
    ((roles_required_view ["admin"] cfgC1
        { is_authenticated := true, roles := ["editor"] } reqC1).response ≠
          Response.handler →
      roles_required_view ["admin"] cfgC1
          { is_authenticated := true, roles := ["editor"] } reqC1 =
        { response := .redirect (reqC1.referrer.getD "/") none
          logs := ["Identity does not provide the roles"]
          flashes := [] }) ∧
    ((roles_accepted_view ["admin"] cfgC1
        { is_authenticated := true, roles := ["editor"] } reqC1).response ≠
          Response.handler →
      roles_accepted_view ["admin"] cfgC1
          { is_authenticated := true, roles := ["editor"] } reqC1 =
        { response := .redirect (reqC1.referrer.getD "/") none
          logs := ["Current user does not provide a required role"]
          flashes := ["You do not have permission to view this resource"] }) :=
  C5_soft_deny_redirect ["admin"] cfgC1
    { is_authenticated := true, roles := ["editor"] } reqC1 rfl

/-- C6: an unauthenticated (anonymous) request to a role-gated view — under
either decorator — is answered by a redirect to the configured login view
carrying the originally requested URL as the `next` return-path parameter,
and the handler does not run. -/
theorem C6_anonymous_login_redirect (rolesR rolesA : List String)
    (cfg : SecurityConfig) (user : CurrentUser) (req : Request)
    (hanon : user.is_authenticated = false) :
    roles_required_view rolesR cfg user req =
      { response := .redirect cfg.login_view (some req.url)
        logs := [], flashes := [] } ∧
    roles_accepted_view rolesA cfg user req =
      { response := .redirect cfg.login_view (some req.url)
        logs := [], flashes := [] } ∧
    (roles_required_view rolesR cfg user req).response ≠ Response.handler ∧
    (roles_accepted_view rolesA cfg user req).response ≠ Response.handler := by
  unfold roles_required_view roles_accepted_view
  rw [hanon]
  simp

/-- Witness for `C6_anonymous_login_redirect` at a concrete anonymous
request. -/
theorem C6_anonymous_login_redirect_witness :
    roles_required_view ["admin"] cfgC1
        { is_authenticated := false, roles := [] } reqC1 =
      { response := .redirect cfgC1.login_view (some reqC1.url)
        logs := [], flashes := [] } ∧
    roles_accepted_view ["editor"] cfgC1
        { is_authenticated := false, roles := [] } reqC1 =
      { response := .redirect cfgC1.login_view (some reqC1.url)
        logs := [], flashes := [] } ∧
    (roles_required_view ["admin"] cfgC1
        { is_authenticated := false, roles := [] } reqC1).response ≠
      Response.handler ∧
    (roles_accepted_view ["editor"] cfgC1
        { is_authenticated := false, roles := [] } reqC1).response ≠
      Response.handler :=
  C6_anonymous_login_redirect ["admin"] ["editor"] cfgC1
    { is_authenticated := false, roles := [] } reqC1 rfl

/-- C9: the token guard admits a request exactly when the datastore lookup
on the extracted token value succeeds — the returned identity's stored
token is never compared with the request's (the decision factors through
`isOk` alone); when neither the configured header nor the configured query
parameter is present, the lookup still runs with the null token, so a
datastore that answers the null lookup admits a request that carried no
token at all. -/
theorem C9_token_grant_iff_lookup_ok (cfg : SecurityConfig) (ds : Datastore)
    (req : Request) :
    ((auth_token_required_view cfg ds req).response = Response.handler ↔
      (ds.find_user_by_token (extractToken cfg req)).isOk = true) ∧
    (lookupKV req.headers cfg.token_authentication_header = none →
      lookupKV req.args cfg.token_authentication_key = none →
      extractToken cfg req = none) ∧
    (lookupKV req.headers cfg.token_authentication_header = none →
      lookupKV req.args cfg.token_authentication_key = none →
      (ds.find_user_by_token none).isOk = true →
      (auth_token_required_view cfg ds req).response = Response.handler) := by
  have hext : ∀ (hh : lookupKV req.headers cfg.token_authentication_header = none)
      (ha : lookupKV req.args cfg.token_authentication_key = none),
      extractToken cfg req = none := by
    intro hh ha
    unfold extractToken
    rw [ha, hh]
  have hiff : (auth_token_required_view cfg ds req).response = Response.handler ↔
      (ds.find_user_by_token (extractToken cfg req)).isOk = true := by
    unfold auth_token_required_view check_token
    cases hds : ds.find_user_by_token (extractToken cfg req) with
    | ok w => simp [hds, Except.isOk, Except.toBool]
    | error e => simp [hds, Except.isOk, Except.toBool]
  refine ⟨hiff, hext, ?_⟩
  intro hh ha hok
  exact hiff.mpr (by rw [hext hh ha]; exact hok)

/-- A datastore whose token lookup succeeds on the null token, for the C9
witness. -/
def dsNullOk : Datastore :=
  { find_user_by_token := fun t => if t == none then .ok userC1 else .error ()
    find_user_by_email := fun _ => .error () }

/-- A request carrying no token in any header or query parameter. -/
def reqNoToken : Request :=
  { headers := [], args := [], url := "/api", referrer := none
    authorization := none }

/-- Witness for `C9_token_grant_iff_lookup_ok`: with no token supplied and a
datastore that answers the null lookup, the handler runs. -/
theorem C9_token_grant_iff_lookup_ok_witness :
    ((auth_token_required_view cfgC1 dsNullOk reqNoToken).response =
        Response.handler ↔
      (dsNullOk.find_user_by_token (extractToken cfgC1 reqNoToken)).isOk = true) ∧
    (lookupKV reqNoToken.headers cfgC1.token_authentication_header = none →
      lookupKV reqNoToken.args cfgC1.token_authentication_key = none →
      extractToken cfgC1 reqNoToken = none) ∧
    (lookupKV reqNoToken.headers cfgC1.token_authentication_header = none →
      lookupKV reqNoToken.args cfgC1.token_authentication_key = none →
      (dsNullOk.find_user_by_token none).isOk = true →
      (auth_token_required_view cfgC1 dsNullOk reqNoToken).response =
        Response.handler) :=
  C9_token_grant_iff_lookup_ok cfgC1 dsNullOk reqNoToken

/-- Concrete redirect-target configuration for the view theorems. -/
def urlsW : Urls :=
  { login := "/login", post_login := "/post_login"
    confirm_error_view := some "/confirm_error"
    send_confirmation := "/send_confirmation"
    post_confirm_view := some "/post_confirm"
    forgot_password := "/forgot", post_reset_view := some "/post_reset" }

/-- An unconfirmed user for the expiry counterexample. -/
def userC7 : Identity :=
  { id := 1, email := some "p@example.com", password := "hash", roles := []
    authentication_token := none, confirmed_at := none }

/-- A context in which the token `tok` decodes to `userC7` issued at time 0,
the TTL is 5 and the clock reads 100 — so the token is expired. -/
def ctxC7 : TokenEvalCtx :=
  { decode := fun t => if t == "tok" then some { identityId := 1, issuedAt := 0 } else none
    findById := fun i => if i == 1 then some userC7 else none
    ttl := 5, now := 100 }

/-- C7 counterexample: on an expired reset token, `reset_password` re-issues
nothing and notifies nobody — it only flashes an expiry notice and redirects
to the forgot-password view, unlike the other two token views. -/
theorem C7_reset_no_reissue_counterexample :
    token_status ctxC7 "tok" = (true, false, some userC7) ∧
    (reset_password ctxC7 urlsW true "newpw" "tok").reissuedTo = [] ∧
    (reset_password ctxC7 urlsW true "newpw" "tok").flashes =
      ["PASSWORD_RESET_EXPIRED"] ∧
    (reset_password ctxC7 urlsW true "newpw" "tok").response =
      .redirect "/forgot" none := by
  decide

/-- C7 amended: on an `Expired` status, `token_login` and `confirm_email`
re-issue a fresh token to the identity (send new instructions to its email)
and redirect, but `reset_password` does not re-issue — it only flashes the
expiry notice and redirects to the forgot-password view. -/
theorem C7_expired_reissue_except_reset (ctx : TokenEvalCtx) (urls : Urls)
    (current : Option Nat) (formValid : Bool) (npw token : String)
    (u : Identity)
    (hexp : token_status ctx token = (true, false, some u)) :
    (token_login ctx urls token).reissuedTo = [u.id] ∧
    (token_login ctx urls token).response = .redirect urls.login none ∧
    (confirm_email ctx urls current token).reissuedTo = [u.id] ∧
    (confirm_email ctx urls current token).response =
      .redirect (urls.confirm_error_view.getD urls.send_confirmation) none ∧
    (reset_password ctx urls formValid npw token).reissuedTo = [] ∧
    (reset_password ctx urls formValid npw token).response =
      .redirect urls.forgot_password none := by
  unfold token_login confirm_email reset_password
  rw [hexp]
  simp

/-- Witness for `C7_expired_reissue_except_reset` at the concrete expired
context. -/
theorem C7_expired_reissue_except_reset_witness :
    (token_login ctxC7 urlsW "tok").reissuedTo = [userC7.id] ∧
    (token_login ctxC7 urlsW "tok").response = .redirect urlsW.login none ∧
    (confirm_email ctxC7 urlsW none "tok").reissuedTo = [userC7.id] ∧
    (confirm_email ctxC7 urlsW none "tok").response =
      .redirect (urlsW.confirm_error_view.getD urlsW.send_confirmation) none ∧
    (reset_password ctxC7 urlsW true "newpw" "tok").reissuedTo = [] ∧
    (reset_password ctxC7 urlsW true "newpw" "tok").response =
      .redirect urlsW.forgot_password none :=
  C7_expired_reissue_except_reset ctxC7 urlsW none true "newpw" "tok" userC7
    (by decide)

/-- A user whose confirmed-at field is already set. -/
def userC8 : Identity :=
  { id := 2, email := some "c@example.com", password := "hash", roles := []
    authentication_token := none, confirmed_at := some 10 }

/-- A context in which the confirmation token `ctok` for the
already-confirmed `userC8` was issued at time 0 and, with TTL 5 and the
clock at 100, has expired. -/
def ctxC8 : TokenEvalCtx :=
  { decode := fun t => if t == "ctok" then some { identityId := 2, issuedAt := 0 } else none
    findById := fun i => if i == 2 then some userC8 else none
    ttl := 5, now := 100 }

/-- The same context with the clock at 3, inside the TTL window. -/
def ctxC8v : TokenEvalCtx :=
  { decode := fun t => if t == "ctok" then some { identityId := 2, issuedAt := 0 } else none
    findById := fun i => if i == 2 then some userC8 else none
    ttl := 5, now := 3 }

/-- C8 counterexample: an expired confirmation token whose identity is
already confirmed takes the Expired path — the expiry notice is flashed,
confirmation instructions are re-sent, and the response is the error-view
redirect, not the already-confirmed no-op success redirect. -/
theorem C8_already_confirmed_counterexample :
    userC8.confirmed_at = some 10 ∧
    (confirm_email ctxC8 urlsW none "ctok").flashes = ["CONFIRMATION_EXPIRED"] ∧
    (confirm_email ctxC8 urlsW none "ctok").reissuedTo = [2] ∧
    (confirm_email ctxC8 urlsW none "ctok").response =
      .redirect "/confirm_error" none ∧
    (confirm_email ctxC8 urlsW none "ctok").response ≠
      .redirect "/post_confirm" none := by
  decide

/-- C8 amended: for a decodable, unexpired confirmation token whose
referenced identity is already confirmed, `confirm_email` flashes the
distinct already-confirmed notice, redirects to the post-confirm (or
post-login) target, registers no commit, and leaves the identity record
unchanged — never the Invalid or Expired outcome. -/
theorem C8_already_confirmed_noop (ctx : TokenEvalCtx) (urls : Urls)
    (current : Option Nat) (token : String) (u : Identity) (t : Nat)
    (hval : token_status ctx token = (false, false, some u))
    (hconf : u.confirmed_at = some t) :
    (confirm_email ctx urls current token).flashes = ["ALREADY_CONFIRMED"] ∧
    (confirm_email ctx urls current token).response =
      .redirect (urls.post_confirm_view.getD urls.post_login) none ∧
    (confirm_email ctx urls current token).committed = false ∧
    (confirm_email ctx urls current token).userAfter = some u ∧
    (confirm_email ctx urls current token).reissuedTo = [] := by
  unfold confirm_email
  rw [hval]
  simp [confirm_user, hconf]

/-- Witness for `C8_already_confirmed_noop` at the concrete unexpired
context. -/
theorem C8_already_confirmed_noop_witness :
    (confirm_email ctxC8v urlsW none "ctok").flashes = ["ALREADY_CONFIRMED"] ∧
    (confirm_email ctxC8v urlsW none "ctok").response =
      .redirect (urlsW.post_confirm_view.getD urlsW.post_login) none ∧
    (confirm_email ctxC8v urlsW none "ctok").committed = false ∧
    (confirm_email ctxC8v urlsW none "ctok").userAfter = some userC8 ∧
    (confirm_email ctxC8v urlsW none "ctok").reissuedTo = [] :=
  C8_already_confirmed_noop ctxC8v urlsW none "ctok" userC8 10
    (by decide) (by decide)

/-- C10: on a valid confirmation token, `confirm_email` switches the session
to the token's identity — when the current session identity differs,
`logout_user` then `login_user(user)` run before the confirmation — so the
session identity after the view always equals the token's identity. -/
theorem C10_confirm_email_session_switch (ctx : TokenEvalCtx) (urls : Urls)
    (current : Option Nat) (token : String) (u : Identity)
    (hval : token_status ctx token = (false, false, some u)) :
    (confirm_email ctx urls current token).sessionAfter = some u.id ∧
    (current ≠ some u.id →
      (confirm_email ctx urls current token).loggedOut = true ∧
      (confirm_email ctx urls current token).loggedIn = some u.id) := by
  unfold confirm_email
  rw [hval]
  by_cases h : current = some u.id
  · simp [h, confirm_user]
  · simp [h, confirm_user]

/-- Witness for `C10_confirm_email_session_switch`: a session logged in as
identity 99 confirming identity 2's token ends up logged in as identity 2. -/
theorem C10_confirm_email_session_switch_witness :
    (confirm_email ctxC8v urlsW (some 99) "ctok").sessionAfter =
      some userC8.id ∧
    (some 99 ≠ some userC8.id →
      (confirm_email ctxC8v urlsW (some 99) "ctok").loggedOut = true ∧
      (confirm_email ctxC8v urlsW (some 99) "ctok").loggedIn =
        some userC8.id) :=
  C10_confirm_email_session_switch ctxC8v urlsW (some 99) "ctok" userC8
    (by decide)

end FlaskSecurity
